import Mathlib

/-!
Shallow embedding of the rag-base frontend authentication / gateway layer
(`src/frontend/js/auth.js` and the chat module) for specification checking.

JavaScript values that cross the boundary of the modelled functions are
represented as follows:
* JSON values are the inductive `Json` below; JS numbers are modelled as
  exact rationals (`ℚ`). IEEE-754 rounding of arithmetic is not modelled;
  the only numeric operations the embedded code performs are `* 100` and
  `toFixed(1)`, modelled exactly over `ℚ`.
* `undefined` is modelled as `Option.none` where a value may be absent
  (missing object field, missing config variable, missing DOM element).
* A thrown JS exception is the `JsError` inductive: `JsError.error m` is
  `throw new Error(m)`; `JsError.jsonParseError m` is the SyntaxError with
  which `response.json()` rejects on an unparseable body (its message `m`
  is engine-defined); `JsError.typeError m` is a TypeError such as reading
  a property of `null`.
* Network I/O is made explicit: each gateway function returns the list of
  `Request`s it issues (in order) together with its result, and takes the
  `HttpResponse` the transport would deliver as a parameter.
-/

/-- JSON values (JS numbers as exact rationals). -/
inductive Json where
  | null : Json
  | bool (b : Bool) : Json
  | num (q : ℚ) : Json
  | str (s : String) : Json
  | arr (elems : List Json) : Json
  | obj (fields : List (String × Json)) : Json

/-- JS property access `j[key]`: defined only on objects; on every other
value (except `null`/`undefined`, handled at the use sites) it yields
`undefined` (`none`). -/
def Json.getField : Json → String → Option Json
  | .obj fields, key => fields.lookup key
  | _, _ => none

/-- JS truthiness of a JSON value (`null`, `false`, `0`, `""` are falsy). -/
def Json.truthy : Json → Bool
  | .null => false
  | .bool b => b
  | .num q => q != 0
  | .str s => s != ""
  | .arr _ => true
  | .obj _ => true

/-- JS truthiness of a possibly-`undefined` value. -/
def jsTruthy : Option Json → Bool
  | none => false
  | some j => j.truthy

/-- Lower-case hexadecimal digit. -/
def hexDigit (n : Nat) : Char :=
  if n < 10 then Char.ofNat ('0'.toNat + n) else Char.ofNat ('a'.toNat + (n - 10))

/-- Four-digit hexadecimal rendering used by JSON string escapes. -/
def hex4 (n : Nat) : String :=
  String.mk [hexDigit (n / 4096 % 16), hexDigit (n / 256 % 16),
             hexDigit (n / 16 % 16), hexDigit (n % 16)]

/-- Escaping by `JSON.stringify` of a single character inside a string. -/
def jsonEscapeChar (c : Char) : String :=
  if c = '"' then "\\\""
  else if c = '\\' then "\\\\"
  else if c = '\u0008' then "\\b"
  else if c = '\u000c' then "\\f"
  else if c = '\n' then "\\n"
  else if c = '\r' then "\\r"
  else if c = '\t' then "\\t"
  else if c.toNat < 32 then "\\u" ++ hex4 c.toNat
  else String.singleton c

/-- Escaping by `JSON.stringify` of a string body. -/
def jsonEscape (s : String) : String :=
  s.data.foldl (fun acc c => acc ++ jsonEscapeChar c) ""

mutual
/-- Model of `JSON.stringify` of a JSON value. (For non-integer numbers JS prints a
shortest decimal representation; we print `num/den`. No embedded call
stringifies a non-integer number, so no claim depends on that case.) -/
def Json.stringify : Json → String
  | .null => "null"
  | .bool true => "true"
  | .bool false => "false"
  | .num q => if q.den = 1 then toString q.num else toString q.num ++ "/" ++ toString q.den
  | .str s => "\"" ++ jsonEscape s ++ "\""
  | .arr elems => "[" ++ Json.stringifyElems elems ++ "]"
  | .obj fields => "\x7b" ++ Json.stringifyFields fields ++ "\x7d"

/-- Comma-separated `JSON.stringify` of array elements. -/
def Json.stringifyElems : List Json → String
  | [] => ""
  | [j] => j.stringify
  | j :: rest => j.stringify ++ "," ++ Json.stringifyElems rest

/-- Comma-separated `JSON.stringify` of object fields. -/
def Json.stringifyFields : List (String × Json) → String
  | [] => ""
  | [(k, v)] => "\"" ++ jsonEscape k ++ "\":" ++ v.stringify
  | (k, v) :: rest => "\"" ++ jsonEscape k ++ "\":" ++ v.stringify ++ "," ++ Json.stringifyFields rest
end

mutual
/-- JS `String(v)` coercion of a JSON value. (Same caveat as
`Json.stringify` for non-integer numbers; unused by any claim.) -/
def Json.jsToString : Json → String
  | .null => "null"
  | .bool true => "true"
  | .bool false => "false"
  | .num q => if q.den = 1 then toString q.num else toString q.num ++ "/" ++ toString q.den
  | .str s => s
  | .arr elems => Json.jsToStringElems elems
  | .obj _ => "[object Object]"

/-- JS `Array.prototype.toString`: elements joined by commas, `null`
rendered as the empty string. -/
def Json.jsToStringElems : List Json → String
  | [] => ""
  | [.null] => ""
  | [j] => j.jsToString
  | .null :: rest => "," ++ Json.jsToStringElems rest
  | j :: rest => j.jsToString ++ "," ++ Json.jsToStringElems rest
end

/-- JS `s1 || s2` on strings: the left operand unless it is falsy (empty). -/
def jsStrOr (s fallback : String) : String :=
  if s = "" then fallback else s

/-- A thrown JS exception, as seen by a `catch` block. -/
inductive JsError where
  /-- Thrown via `throw new Error(message)`. -/
  | error (message : String) : JsError
  /-- The SyntaxError with which `response.json()` rejects when the body is
  not parseable JSON; `message` is the engine-defined parse error text. -/
  | jsonParseError (message : String) : JsError
  /-- A TypeError, e.g. reading a property of `null`. -/
  | typeError (message : String) : JsError
deriving Repr, DecidableEq

/-- The `.message` of a thrown exception (always a non-`undefined` string for
the three kinds modelled here; may be empty only for `new Error("")`). -/
def JsError.message : JsError → String
  | .error m => m
  | .jsonParseError m => m
  | .typeError m => m

/-- A Supabase auth user, as far as this frontend inspects it
(`user.email`). -/
structure User where
  email : String
deriving Repr, DecidableEq

/-- A Supabase session, as far as this frontend inspects it
(`session.access_token`). -/
structure Session where
  access_token : String
deriving Repr, DecidableEq

/-- The environment the Session Provider runs in: whether the global
`supabase` library object is defined (`initSupabase` succeeds iff it is;
`createClient` itself cannot fail), and the outcomes the identity backend
would report for `auth.getUser()` and `auth.getSession()`.
`getUserError` / `getSessionError` are `some` when the corresponding call
resolves with a truthy `error` (its `.message`), and the `data` fields are
modelled separately, as in the Supabase response shape
`\x7b data, error \x7d`. -/
structure SupabaseEnv where
  loaded : Bool
  getUserUser : Option User
  getUserError : Option String
  getSessionSession : Option Session
  getSessionError : Option String
deriving Repr, DecidableEq

/-- Model of `initSupabase()`: returns a client (here: `true`) iff the `supabase`
global is defined; logs and returns `null` otherwise. The lazily-created
singleton client is stateless in this model because `createClient` always
succeeds when the library is loaded. -/
def initSupabase (env : SupabaseEnv) : Bool :=
  env.loaded

/-- Model of `getCurrentUser()`: the user (or `null`) together with the console
error lines the call emits. Returns `null` when the client is unavailable
or the backend reports an error; never throws. -/
def getCurrentUser (env : SupabaseEnv) : Option User × List String :=
  if initSupabase env then
    match env.getUserError with
    | some msg => (none, ["ユーザー取得エラー:" ++ msg])
    | none => (env.getUserUser, [])
  else (none, ["Supabaseクライアントが読み込まれていません"])

/-- Model of `getAuthToken()`: `session.access_token`, or `null` when the client is
unavailable, the backend reports an error, or there is no session. -/
def getAuthToken (env : SupabaseEnv) : Option String :=
  if initSupabase env then
    match env.getSessionError, env.getSessionSession with
    | none, some session => some session.access_token
    | _, _ => none
  else none

/-- Model of `checkAuth()`: `user !== null`. -/
def checkAuth (env : SupabaseEnv) : Bool :=
  (getCurrentUser env).1.isSome

/-- Model of `requireAuth()`: the redirect it performs (assignment to
`window.location.href`), if any, together with its boolean result. -/
def requireAuth (env : SupabaseEnv) : Option String × Bool :=
  if checkAuth env then (none, true) else (some "/login.html", false)

/-- Model of `isAdmin()`: membership of the current user's email in the
comma-split `window.ADMIN_EMAILS` allow-list (`cfg` is `none` when the
variable is undefined; a falsy — empty — string also yields the empty
list). -/
def isAdmin (env : SupabaseEnv) (cfg : Option String) : Bool :=
  match (getCurrentUser env).1 with
  | none => false
  | some user =>
    let adminEmails : List String :=
      match cfg with
      | some s => if s != "" then s.splitOn "," else []
      | none => []
    adminEmails.contains user.email

/-- The message of the error `getAuthHeaders` throws when no token is
available. -/
def authTokenErrorMessage : String := "認証トークンが取得できませんでした"

/-- Model of `getAuthHeaders()`: the `if (!token)` guard throws when
`getAuthToken()` is falsy — `null` or the empty string — and otherwise the
two-entry header object is returned, in insertion order. -/
def getAuthHeaders (env : SupabaseEnv) : Except JsError (List (String × String)) :=
  match getAuthToken env with
  | none => .error (.error authTokenErrorMessage)
  | some token =>
    if token = "" then .error (.error authTokenErrorMessage)
    else .ok [("Authorization", "Bearer " ++ token), ("Content-Type", "application/json")]

/-- Body of an outgoing `fetch` request. -/
inductive RequestBody where
  /-- No `body` option (GET requests). -/
  | empty : RequestBody
  /-- A `JSON.stringify`-produced string body. -/
  | jsonStr (s : String) : RequestBody
  /-- A `FormData` body carrying a single `file` field. -/
  | formData (fileName : String) : RequestBody
deriving Repr, DecidableEq

/-- An outgoing `fetch` request as the embedded code constructs it. -/
structure Request where
  url : String
  method : String
  headers : List (String × String)
  body : RequestBody
deriving Repr, DecidableEq

/-- What the transport would answer: `response.ok`, and the outcome of
`await response.json()` on the body (`Except.error m` when the body is not
parseable JSON and the promise rejects with a SyntaxError of message `m`). -/
structure HttpResponse where
  ok : Bool
  jsonBody : Except String Json

/-- The value of `error.detail || fallback` after `const error = await
response.json()` succeeded with `errJson`, i.e. the argument passed to
`new Error(...)` — except that when `errJson` is `null` the property read
itself throws a TypeError, handled by the caller. -/
def detailOr (errJson : Json) (fallback : String) : String :=
  match errJson.getField "detail" with
  | some d => if d.truthy then d.jsToString else fallback
  | none => fallback

/-- The shared response epilogue of every gateway function:
`if (!response.ok) \x7b const error = await response.json(); throw new
Error(error.detail || fallback); \x7d return await response.json();`.
(The two `response.json()` reads hit the same body, so they are modelled
by the single `resp.jsonBody` outcome.) -/
def handleResponse (resp : HttpResponse) (fallback : String) : Except JsError Json :=
  if resp.ok then
    match resp.jsonBody with
    | .ok j => .ok j
    | .error m => .error (.jsonParseError m)
  else
    match resp.jsonBody with
    | .ok .null =>
      .error (.typeError "Cannot read properties of null (reading 'detail')")
    | .ok errJson => .error (.error (detailOr errJson fallback))
    | .error m => .error (.jsonParseError m)

/-- Fallback message of `sendMessage`. -/
def sendMessageFallback : String := "メッセージ送信に失敗しました"

/-- Fallback message of `getFiles` (also used by `loadFiles`). -/
def getFilesFallback : String := "ファイル一覧の取得に失敗しました"

/-- Fallback message of `uploadFile`. -/
def uploadFileFallback : String := "ファイルアップロードに失敗しました"

/-- Fallback message of `deleteFile` (also used by `handleDeleteFile`). -/
def deleteFileFallback : String := "ファイル削除に失敗しました"

/-- Model of `sendMessage(message)` from the chat module: the requests it
issues (in order) and its result. -/
def sendMessage (env : SupabaseEnv) (apiBaseUrl message : String)
    (resp : HttpResponse) : List Request × Except JsError Json :=
  match getAuthHeaders env with
  | .error e => ([], .error e)
  | .ok headers =>
    ([{ url := apiBaseUrl ++ "/chat", method := "POST", headers := headers,
        body := .jsonStr (Json.stringify (.obj [("message", .str message)])) }],
     handleResponse resp sendMessageFallback)

/-- Model of `getFiles(status = null)`: `status` is `none` for the JS
`null` default; the `if (status)` guard also rejects the falsy empty
string. -/
def getFiles (env : SupabaseEnv) (apiBaseUrl : String) (status : Option String)
    (resp : HttpResponse) : List Request × Except JsError Json :=
  match getAuthHeaders env with
  | .error e => ([], .error e)
  | .ok headers =>
    let url0 := apiBaseUrl ++ "/admin/files"
    let url :=
      match status with
      | some s => if s != "" then url0 ++ "?status=" ++ s else url0
      | none => url0
    ([{ url := url, method := "GET", headers := headers, body := .empty }],
     handleResponse resp getFilesFallback)

/-- Model of `uploadFile(file)`: deletes `Content-Type` from the header
object and sends only the `Authorization` entry alongside the `FormData`
body. (`headers1.lookup` cannot miss: `getAuthHeaders` always includes
`Authorization`.) -/
def uploadFile (env : SupabaseEnv) (apiBaseUrl fileName : String)
    (resp : HttpResponse) : List Request × Except JsError Json :=
  match getAuthHeaders env with
  | .error e => ([], .error e)
  | .ok headers =>
    let headers1 := headers.filter (fun p => p.1 != "Content-Type")
    let sentHeaders :=
      match headers1.lookup "Authorization" with
      | some v => [("Authorization", v)]
      | none => []
    ([{ url := apiBaseUrl ++ "/admin/upload", method := "POST",
        headers := sentHeaders, body := .formData fileName }],
     handleResponse resp uploadFileFallback)

/-- Model of `deleteFile(fileId)`: `confirmed` is the user's answer to the
`confirm('このファイルを削除しますか？')` dialog. A declined confirmation
returns `undefined` (`Except.ok none`) without touching auth or the
network; otherwise the success value is the parsed JSON body (`some`). -/
def deleteFile (env : SupabaseEnv) (apiBaseUrl fileId : String)
    (confirmed : Bool) (resp : HttpResponse) :
    List Request × Except JsError (Option Json) :=
  if !confirmed then ([], .ok none)
  else
    match getAuthHeaders env with
    | .error e => ([], .error e)
    | .ok headers =>
      ([{ url := apiBaseUrl ++ "/admin/delete", method := "POST",
          headers := headers,
          body := .jsonStr (Json.stringify (.obj [("file_id", .str fileId)])) }],
       (handleResponse resp deleteFileFallback).map some)

/-- Outcome of one `loadFiles()` run. `displayedFiles = some v` records a
`displayFiles(data.files)` call with argument `v` (`none` inside = the
field was absent, i.e. `undefined` was passed); alerts are
`(message, type)` pairs passed to `showAlert`. -/
structure LoadFilesResult where
  requests : List Request
  alerts : List (String × String)
  displayedFiles : Option (Option Json)

/-- Model of `loadFiles()`. `statusFilterVal` is
`document.getElementById('status-filter')?.value` (`none` when the element
is missing); the code turns a falsy value into `''` and passes
`statusFilter || null` to `getFiles`. Its `try/catch` turns any thrown
error into an `error` alert, so `loadFiles` itself never throws. -/
def loadFiles (env : SupabaseEnv) (apiBaseUrl : String)
    (statusFilterVal : Option String) (resp : HttpResponse) : LoadFilesResult :=
  let statusFilter := statusFilterVal.getD ""
  let statusArg := if statusFilter = "" then none else some statusFilter
  match getFiles env apiBaseUrl statusArg resp with
  | (reqs, .ok data) =>
    { requests := reqs, alerts := [], displayedFiles := some (data.getField "files") }
  | (reqs, .error e) =>
    { requests := reqs,
      alerts := [(jsStrOr e.message getFilesFallback, "error")],
      displayedFiles := none }

/-- Model of `handleDeleteFile(fileId)`: awaits `deleteFile`, then — on any
non-throwing outcome, including a declined confirmation — runs `loadFiles`
and shows the success alert; a thrown error is caught and shown as an
`error` alert instead. Returns all requests issued (in order) and all
alerts shown (in order). -/
def handleDeleteFile (env : SupabaseEnv) (apiBaseUrl fileId : String)
    (confirmed : Bool) (deleteResp : HttpResponse)
    (statusFilterVal : Option String) (filesResp : HttpResponse) :
    List Request × List (String × String) :=
  match deleteFile env apiBaseUrl fileId confirmed deleteResp with
  | (dReqs, .ok _) =>
    let lf := loadFiles env apiBaseUrl statusFilterVal filesResp
    (dReqs ++ lf.requests, lf.alerts ++ [("ファイルを削除しました", "success")])
  | (dReqs, .error e) =>
    (dReqs, [(jsStrOr e.message deleteFileFallback, "error")])

/-- Model of `Number.prototype.toFixed(1)` on a non-negative exact value:
the nearest multiple of 1/10, ties resolved toward the larger value
(ECMA-262: "pick the larger n"), printed with one digit after the dot.
`Int.fdiv num den` is the floor of `num / den`. -/
def toFixed1Abs (x : ℚ) : String :=
  let y := x * 10 + 1 / 2
  let n := (Int.fdiv y.num y.den).toNat
  toString (n / 10) ++ "." ++ toString (n % 10)

/-- Model of `Number.prototype.toFixed(1)` (ECMA-262 prepends `-` for a
negative receiver). -/
def toFixed1 (x : ℚ) : String :=
  if x < 0 then "-" ++ toFixed1Abs (-x) else toFixed1Abs x

/-- Interpolation `$\x7bv\x7d` of a possibly-`undefined` value in a JS
template literal. -/
def jsTemplate : Option Json → String
  | none => "undefined"
  | some j => j.jsToString

/-- The `(source.similarity * 100).toFixed(1)` fragment. A non-numeric
`similarity` is modelled as multiplying to NaN, which `toFixed` prints as
`"NaN"`; JS `ToNumber` coercion of non-number values (e.g. numeric
strings) is not modelled, and no claim depends on it. -/
def similarityPercent : Option Json → String
  | some (.num q) => toFixed1 (q * 100)
  | _ => "NaN"

/-- Text content of one `<li>` produced by `displaySources`:
`$\x7bsource.file_name\x7d (類似度: $\x7b(source.similarity * 100).toFixed(1)\x7d%)`. -/
def sourceLine (source : Json) : String :=
  jsTemplate (source.getField "file_name") ++ " (類似度: " ++
    similarityPercent (source.getField "similarity") ++ "%)"

/-- One rendered chat element (a DOM node appended to `#chat-messages`). -/
inductive ChatRender where
  /-- Rendered by `displayMessage(message, true)`. -/
  | userMessage (text : String) : ChatRender
  /-- Rendered by `displayMessage(message, false)`. -/
  | assistantMessage (text : String) : ChatRender
  /-- The `participating sources` list rendered by `displaySources`. -/
  | sources (items : List String) : ChatRender
  /-- Rendered by `displayError`. -/
  | errorMessage (text : String) : ChatRender

/-- Assignment of a possibly-`undefined` value to `Element.textContent`
(the DOM coerces `null` to the empty string, `undefined` to
`"undefined"`). -/
def jsTextContent : Option Json → String
  | none => "undefined"
  | some .null => ""
  | some j => j.jsToString

/-- Model of `displaySources(sources)`: renders nothing when `sources` is
falsy or has length 0; otherwise one list with an entry per source.
Non-array truthy values carrying a `length` (e.g. strings) are not
modelled; no claim exercises them. -/
def displaySources (sources : Option Json) : List ChatRender :=
  match sources with
  | some (.arr elems) => if elems.isEmpty then [] else [.sources (elems.map sourceLine)]
  | _ => []

/-- The ECMA-262 `TrimString` character set: WhiteSpace (TAB, VT, FF, SP,
NBSP, ZWNBSP and the Unicode space separators) plus LineTerminator (LF,
CR, LS, PS). -/
def isJsWhitespace (c : Char) : Bool :=
  c.toNat = 0x9 || c.toNat = 0xA || c.toNat = 0xB || c.toNat = 0xC ||
  c.toNat = 0xD || c.toNat = 0x20 || c.toNat = 0xA0 || c.toNat = 0x1680 ||
  (0x2000 ≤ c.toNat && c.toNat ≤ 0x200A) || c.toNat = 0x2028 ||
  c.toNat = 0x2029 || c.toNat = 0x202F || c.toNat = 0x205F ||
  c.toNat = 0x3000 || c.toNat = 0xFEFF

/-- Model of JS `String.prototype.trim()`: strip leading and trailing
`isJsWhitespace` characters. -/
def jsTrim (s : String) : String :=
  String.mk
    (((s.data.dropWhile isJsWhitespace).reverse.dropWhile isJsWhitespace).reverse)

/-- Model of one run of the `chat-form` submit handler from `initChat()`:
trims the input, returns early when it is empty, renders the user message,
awaits `sendMessage`, then renders the answer — and the sources when
`response.sources && response.sources.length > 0` — or the caught error.
Returns the requests issued and the elements rendered, in order. -/
def chatSubmit (env : SupabaseEnv) (apiBaseUrl inputValue : String)
    (resp : HttpResponse) : List Request × List ChatRender :=
  let message := jsTrim inputValue
  if message = "" then ([], [])
  else
    match sendMessage env apiBaseUrl message resp with
    | (reqs, .ok response) =>
      let sourcesGuard :=
        match response.getField "sources" with
        | some (.arr elems) => decide (elems.length > 0)
        | _ => false
      (reqs,
       [ChatRender.userMessage message,
        ChatRender.assistantMessage (jsTextContent (response.getField "answer"))] ++
       (if sourcesGuard then displaySources (response.getField "sources") else []))
    | (reqs, .error e) =>
      (reqs,
       [ChatRender.userMessage message,
        ChatRender.errorMessage (jsStrOr e.message sendMessageFallback)])

/-! ## Concrete fixtures used by witnesses and counterexamples -/

/-- An environment with a logged-in user and a live session. -/
def authedEnv : SupabaseEnv :=
  { loaded := true, getUserUser := some { email := "alice@example.com" },
    getUserError := none, getSessionSession := some { access_token := "tok123" },
    getSessionError := none }

/-- An environment with the library loaded but no user and no session. -/
def anonEnv : SupabaseEnv :=
  { loaded := true, getUserUser := none, getUserError := none,
    getSessionSession := none, getSessionError := none }

/-- The default API base URL of the repository. -/
def localApiBase : String := "http://localhost:7071/api"

/-- A successful empty-object response. -/
def okResp : HttpResponse := { ok := true, jsonBody := .ok (.obj []) }

/-- A non-2xx response whose body is not parseable JSON. -/
def badJsonResp : HttpResponse :=
  { ok := false, jsonBody := .error "Unexpected token < in JSON at position 0" }

/-! ## Claims -/

/-- C3: `isAdmin()` returns true iff a user is present and the user's email
is byte-for-byte equal to one of the elements obtained by splitting the
configured admin allow-list string on commas; it returns false when no user
is resolvable or when the allow-list is empty/unset. -/
theorem isAdmin_iff_email_in_allowlist (env : SupabaseEnv) (cfg : Option String) :
    isAdmin env cfg = true ↔
      ∃ user allow, (getCurrentUser env).1 = some user ∧ cfg = some allow ∧
        allow ≠ "" ∧ user.email ∈ allow.splitOn "," := by
  unfold isAdmin
  cases hu : (getCurrentUser env).1 with
  | none => simp
  | some user =>
    cases cfg with
    | none => simp
    | some allow =>
      by_cases hb : allow = ""
      · subst hb; simp
      · simp [hb]

/-- C7: `requireAuth()` returns true when an authenticated user is
resolvable; when no authenticated user is resolvable it sets the browser
location to `/login.html` and returns false. -/
theorem requireAuth_redirects_iff_no_user (env : SupabaseEnv) :
    ((getCurrentUser env).1.isSome = true → requireAuth env = (none, true)) ∧
    ((getCurrentUser env).1 = none → requireAuth env = (some "/login.html", false)) := by
  constructor
  · intro h
    simp [requireAuth, checkAuth, h]
  · intro h
    simp [requireAuth, checkAuth, h]

/-- Witness for C7: both branches at concrete environments. -/
theorem requireAuth_redirects_iff_no_user_witness :
    requireAuth authedEnv = (none, true) ∧
    requireAuth anonEnv = (some "/login.html", false) :=
  ⟨(requireAuth_redirects_iff_no_user authedEnv).1 (by decide),
   (requireAuth_redirects_iff_no_user anonEnv).2 (by decide)⟩

/-- C8: `getCurrentUser()` never throws to its caller: for every outcome of
the identity-backend query (including a reported error or an uninitialized
client) it returns either the user or `null`, logging on failure. (Totality
of the model — a plain function into `Option User × List String` — is the
"never throws" part; the cases fix the value and the logging.) -/
theorem getCurrentUser_never_throws (env : SupabaseEnv) :
    (env.loaded = true → env.getUserError = none →
      getCurrentUser env = (env.getUserUser, [])) ∧
    (∀ m, env.loaded = true → env.getUserError = some m →
      (getCurrentUser env).1 = none ∧ (getCurrentUser env).2 ≠ []) ∧
    (env.loaded = false →
      (getCurrentUser env).1 = none ∧ (getCurrentUser env).2 ≠ []) := by
  refine ⟨fun hl he => ?_, fun m hl he => ?_, fun hl => ?_⟩ <;>
    simp [getCurrentUser, initSupabase, hl] <;> simp [*]

/-- Witness for C8: the three outcomes at concrete environments. -/
theorem getCurrentUser_never_throws_witness :
    getCurrentUser authedEnv = (some { email := "alice@example.com" }, []) ∧
    (getCurrentUser { authedEnv with getUserError := some "boom" }).1 = none ∧
    (getCurrentUser { authedEnv with loaded := false }).1 = none :=
  ⟨(getCurrentUser_never_throws authedEnv).1 rfl rfl,
   ((getCurrentUser_never_throws _).2.1 "boom" rfl rfl).1,
   ((getCurrentUser_never_throws _).2.2 rfl).1⟩

/-- C6: when the destructive-action confirmation is declined, no POST to
the `/admin/delete` path is ever issued and no token is fetched: the
confirmation check precedes the Gateway call. The first conjunct holds for
every environment — in particular the outcome does not consult the session
— and the second shows every request the enclosing workflow still issues is
a GET (so no POST at all, to any path). -/
theorem deleteFile_declined_issues_no_request (env : SupabaseEnv)
    (apiBaseUrl fileId : String) (resp deleteResp filesResp : HttpResponse)
    (statusFilterVal : Option String) :
    deleteFile env apiBaseUrl fileId false resp = ([], .ok none) ∧
    ((handleDeleteFile env apiBaseUrl fileId false deleteResp statusFilterVal
        filesResp).1.all (fun r => r.method == "GET")) = true := by
  constructor
  · rfl
  · unfold handleDeleteFile deleteFile loadFiles getFiles
    cases hh : getAuthHeaders env with
    | error e => simp
    | ok headers =>
      cases hr : handleResponse filesResp getFilesFallback with
      | ok j => simp
      | error e => simp

/-- C9: when the delete confirmation is declined, `deleteFile` returns
normally (with an undefined result) rather than throwing, so the enclosing
`handleDeleteFile` workflow proceeds to reload the file list (it performs
exactly the `loadFiles` requests) and displays the deletion-success alert
even though no deletion occurred. -/
theorem handleDeleteFile_declined_success_alert (env : SupabaseEnv)
    (apiBaseUrl fileId : String) (deleteResp filesResp : HttpResponse)
    (statusFilterVal : Option String) :
    (deleteFile env apiBaseUrl fileId false deleteResp).2 = .ok none ∧
    handleDeleteFile env apiBaseUrl fileId false deleteResp statusFilterVal
        filesResp =
      ((loadFiles env apiBaseUrl statusFilterVal filesResp).requests,
       (loadFiles env apiBaseUrl statusFilterVal filesResp).alerts ++
         [("ファイルを削除しました", "success")]) := by
  constructor
  · rfl
  · unfold handleDeleteFile
    simp [deleteFile]

/-- Counterexample to C1 as stated: in an environment with no session
(`getAuthToken` returns `none`), a `deleteFile` call whose confirmation is
declined does NOT throw an authentication error — it returns normally with
an undefined result (it does, however, issue no request). -/
theorem deleteFile_declined_no_auth_error :
    getAuthToken anonEnv = none ∧
    deleteFile anonEnv localApiBase "file-1" false okResp = ([], .ok none) ∧
    ∀ e : JsError,
      (deleteFile anonEnv localApiBase "file-1" false okResp).2 ≠ .error e := by
  refine ⟨rfl, rfl, fun e h => ?_⟩
  simp [deleteFile] at h

/-- C1 (amended): for every Gateway call, if `getAuthToken` returns `none`
then the call issues no network request; `sendMessage`, `getFiles`,
`uploadFile`, and a confirmed `deleteFile` throw the authentication error
before any fetch, while a `deleteFile` whose confirmation is declined
returns normally (undefined) — still without any network I/O. -/
theorem gateway_no_token_short_circuits (env : SupabaseEnv)
    (apiBaseUrl message fileName fileId : String) (status : Option String)
    (resp : HttpResponse) (h : getAuthToken env = none) :
    sendMessage env apiBaseUrl message resp =
      ([], .error (.error authTokenErrorMessage)) ∧
    getFiles env apiBaseUrl status resp =
      ([], .error (.error authTokenErrorMessage)) ∧
    uploadFile env apiBaseUrl fileName resp =
      ([], .error (.error authTokenErrorMessage)) ∧
    deleteFile env apiBaseUrl fileId true resp =
      ([], .error (.error authTokenErrorMessage)) ∧
    deleteFile env apiBaseUrl fileId false resp = ([], .ok none) := by
  refine ⟨?_, ?_, ?_, ?_, rfl⟩ <;>
    simp [sendMessage, getFiles, uploadFile, deleteFile, getAuthHeaders, h]

/-- Witness for C1 (amended): the no-session environment short-circuits
every gateway call. -/
theorem gateway_no_token_short_circuits_witness :
    sendMessage anonEnv localApiBase "hi" okResp =
      ([], .error (.error authTokenErrorMessage)) ∧
    getFiles anonEnv localApiBase none okResp =
      ([], .error (.error authTokenErrorMessage)) ∧
    uploadFile anonEnv localApiBase "a.pdf" okResp =
      ([], .error (.error authTokenErrorMessage)) ∧
    deleteFile anonEnv localApiBase "file-1" true okResp =
      ([], .error (.error authTokenErrorMessage)) :=
  have h := gateway_no_token_short_circuits anonEnv localApiBase "hi" "a.pdf"
    "file-1" none okResp rfl
  ⟨h.1, h.2.1, h.2.2.1, h.2.2.2.1⟩

/-- C4: with an available token, every outgoing Gateway request carries
`Authorization: Bearer <token>`; the JSON-body calls (chat, files list,
delete) also carry `Content-Type: application/json`, while the multipart
file-upload request's header object holds only the `Authorization` entry —
no `Content-Type` at all. (An available token is a truthy one: the empty
string fails the `if (!token)` guard and no request is issued.) -/
theorem gateway_request_headers (env : SupabaseEnv)
    (apiBaseUrl message fileName fileId : String) (status : Option String)
    (resp : HttpResponse) (token : String)
    (h : getAuthToken env = some token) (hne : token ≠ "") :
    (sendMessage env apiBaseUrl message resp).1.map Request.headers =
      [[("Authorization", "Bearer " ++ token),
        ("Content-Type", "application/json")]] ∧
    (getFiles env apiBaseUrl status resp).1.map Request.headers =
      [[("Authorization", "Bearer " ++ token),
        ("Content-Type", "application/json")]] ∧
    (deleteFile env apiBaseUrl fileId true resp).1.map Request.headers =
      [[("Authorization", "Bearer " ++ token),
        ("Content-Type", "application/json")]] ∧
    (uploadFile env apiBaseUrl fileName resp).1.map Request.headers =
      [[("Authorization", "Bearer " ++ token)]] ∧
    ∀ r ∈ (uploadFile env apiBaseUrl fileName resp).1,
      r.headers.lookup "Content-Type" = none := by
  refine ⟨?_, ?_, ?_, ?_, ?_⟩ <;>
    simp [sendMessage, getFiles, uploadFile, deleteFile, getAuthHeaders, h,
      hne, List.lookup]

/-- Witness for C4 at a concrete authenticated environment. -/
theorem gateway_request_headers_witness :
    (sendMessage authedEnv localApiBase "hi" okResp).1.map Request.headers =
      [[("Authorization", "Bearer tok123"),
        ("Content-Type", "application/json")]] ∧
    (uploadFile authedEnv localApiBase "a.pdf" okResp).1.map Request.headers =
      [[("Authorization", "Bearer tok123")]] :=
  have h := gateway_request_headers authedEnv localApiBase "hi" "a.pdf"
    "file-1" none okResp "tok123" rfl (by decide)
  ⟨h.1, h.2.2.2.1⟩

/-- C10: with an available token, a non-null non-empty `status` argument
makes `getFiles` request exactly the files-list path with `?status=` plus
the status string appended verbatim; a null (`none`) or empty status
appends no query parameter. (The token must be truthy — non-empty — or the
`if (!token)` guard throws and nothing is requested.) -/
theorem getFiles_url_shape (env : SupabaseEnv) (apiBaseUrl : String)
    (resp : HttpResponse) (token : String)
    (h : getAuthToken env = some token) (hne : token ≠ "") :
    (∀ status : String, status ≠ "" →
      (getFiles env apiBaseUrl (some status) resp).1.map Request.url =
        [apiBaseUrl ++ "/admin/files?status=" ++ status]) ∧
    (getFiles env apiBaseUrl none resp).1.map Request.url =
      [apiBaseUrl ++ "/admin/files"] ∧
    (getFiles env apiBaseUrl (some "") resp).1.map Request.url =
      [apiBaseUrl ++ "/admin/files"] := by
  refine ⟨fun status hs => ?_, ?_, ?_⟩
  · simp [getFiles, getAuthHeaders, h, hne, hs, String.append_assoc]
  · simp [getFiles, getAuthHeaders, h, hne]
  · simp [getFiles, getAuthHeaders, h, hne]

/-- Witness for C10: a concrete filter value and the two no-filter calls. -/
theorem getFiles_url_shape_witness :
    (getFiles authedEnv localApiBase (some "indexed") okResp).1.map Request.url =
      ["http://localhost:7071/api/admin/files?status=indexed"] ∧
    (getFiles authedEnv localApiBase none okResp).1.map Request.url =
      ["http://localhost:7071/api/admin/files"] :=
  have h := getFiles_url_shape authedEnv localApiBase okResp "tok123" rfl
    (by decide)
  ⟨h.1 "indexed" (by decide), h.2.1⟩

/-- Helper: on a non-2xx response whose body is not parseable JSON, the
response epilogue propagates the SyntaxError from `response.json()`. -/
theorem handleResponse_parse_error (resp : HttpResponse) (fallback m : String)
    (hok : resp.ok = false) (hb : resp.jsonBody = .error m) :
    handleResponse resp fallback = .error (.jsonParseError m) := by
  simp [handleResponse, hok, hb]

/-- Helper: on a non-2xx response with a parseable body carrying a truthy
`detail`, the thrown error's message is `String(detail)`. -/
theorem handleResponse_detail (resp : HttpResponse) (fallback : String)
    (b d : Json) (hok : resp.ok = false) (hb : resp.jsonBody = .ok b)
    (hd : b.getField "detail" = some d) (ht : d.truthy = true) :
    handleResponse resp fallback = .error (.error d.jsToString) := by
  cases b with
  | obj fields => simp [handleResponse, hok, hb, detailOr, hd, ht]
  | null => simp [Json.getField] at hd
  | bool b => simp [Json.getField] at hd
  | num q => simp [Json.getField] at hd
  | str s => simp [Json.getField] at hd
  | arr elems => simp [Json.getField] at hd

/-- Helper: on a non-2xx response with a parseable non-`null` body without
a truthy `detail`, the thrown error's message is the fallback. -/
theorem handleResponse_fallback (resp : HttpResponse) (fallback : String)
    (b : Json) (hok : resp.ok = false) (hb : resp.jsonBody = .ok b)
    (hnull : b ≠ .null) (ht : jsTruthy (b.getField "detail") = false) :
    handleResponse resp fallback = .error (.error fallback) := by
  cases b with
  | null => exact absurd rfl hnull
  | obj fields =>
    simp only [Json.getField, jsTruthy] at ht
    cases hd : fields.lookup "detail" with
    | none => simp [handleResponse, hok, hb, detailOr, Json.getField, hd]
    | some d =>
      rw [hd] at ht
      simp only [] at ht
      simp [handleResponse, hok, hb, detailOr, Json.getField, hd, ht]
  | bool b => simp [handleResponse, hok, hb, detailOr, Json.getField]
  | num q => simp [handleResponse, hok, hb, detailOr, Json.getField]
  | str s => simp [handleResponse, hok, hb, detailOr, Json.getField]
  | arr elems => simp [handleResponse, hok, hb, detailOr, Json.getField]

/-- Helper: with a token available, `sendMessage`'s result is the shared
response epilogue with its fallback. -/
theorem sendMessage_result (env : SupabaseEnv) (apiBaseUrl message : String)
    (resp : HttpResponse) (token : String) (h : getAuthToken env = some token)
    (hne : token ≠ "") :
    (sendMessage env apiBaseUrl message resp).2 =
      handleResponse resp sendMessageFallback := by
  simp [sendMessage, getAuthHeaders, h, hne]

/-- Helper: with a token available, `getFiles`'s result is the shared
response epilogue with its fallback. -/
theorem getFiles_result (env : SupabaseEnv) (apiBaseUrl : String)
    (status : Option String) (resp : HttpResponse) (token : String)
    (h : getAuthToken env = some token) (hne : token ≠ "") :
    (getFiles env apiBaseUrl status resp).2 =
      handleResponse resp getFilesFallback := by
  simp [getFiles, getAuthHeaders, h, hne]

/-- Helper: with a token available, `uploadFile`'s result is the shared
response epilogue with its fallback. -/
theorem uploadFile_result (env : SupabaseEnv) (apiBaseUrl fileName : String)
    (resp : HttpResponse) (token : String) (h : getAuthToken env = some token)
    (hne : token ≠ "") :
    (uploadFile env apiBaseUrl fileName resp).2 =
      handleResponse resp uploadFileFallback := by
  simp [uploadFile, getAuthHeaders, h, hne]

/-- Helper: with a token available, a confirmed `deleteFile`'s result is
the shared response epilogue with its fallback (wrapped in `some`). -/
theorem deleteFile_result (env : SupabaseEnv) (apiBaseUrl fileId : String)
    (resp : HttpResponse) (token : String) (h : getAuthToken env = some token)
    (hne : token ≠ "") :
    (deleteFile env apiBaseUrl fileId true resp).2 =
      (handleResponse resp deleteFileFallback).map some := by
  simp [deleteFile, getAuthHeaders, h, hne]

/-- A non-2xx response whose parseable body carries `detail: ""`. -/
def emptyDetailResp : HttpResponse :=
  { ok := false, jsonBody := .ok (.obj [("detail", .str "")]) }

/-- Counterexample to C2 as stated: on a non-2xx response whose body is not
parseable JSON, the thrown error is the propagated JSON parse error, not an
error carrying the localized fallback message; and on a non-2xx response
whose JSON body contains `detail: ""`, the thrown error's message is the
fallback, not that `detail` value. -/
theorem getFiles_unparseable_body_not_fallback :
    (getFiles authedEnv localApiBase none badJsonResp).2 =
      .error (.jsonParseError "Unexpected token < in JSON at position 0") ∧
    JsError.jsonParseError "Unexpected token < in JSON at position 0" ≠
      JsError.error getFilesFallback ∧
    (JsError.jsonParseError "Unexpected token < in JSON at position 0").message ≠
      getFilesFallback ∧
    (getFiles authedEnv localApiBase none emptyDetailResp).2 =
      .error (.error getFilesFallback) ∧
    getFilesFallback ≠ "" := by
  refine ⟨rfl, by decide, by decide, rfl, by decide⟩

/-- C2 (amended): for every Gateway call receiving a non-2xx response with
an available (truthy, i.e. non-empty) token: if the body parses as JSON
with a truthy `detail`, the
thrown error's message is exactly `String(detail)` (for a string `detail`,
the string itself); if the body parses as JSON other than `null` without a
truthy `detail` (absent, empty string, or otherwise falsy), the thrown
error's message is the call's fixed non-empty localized fallback; if the
body is not parseable JSON, the SyntaxError from `response.json()`
propagates instead of the fallback. -/
theorem gateway_non2xx_error_messages (env : SupabaseEnv)
    (apiBaseUrl message fileName fileId : String) (status : Option String)
    (resp : HttpResponse) (token : String)
    (h : getAuthToken env = some token) (hne : token ≠ "")
    (hok : resp.ok = false) :
    (∀ m, resp.jsonBody = .error m →
      (sendMessage env apiBaseUrl message resp).2 = .error (.jsonParseError m) ∧
      (getFiles env apiBaseUrl status resp).2 = .error (.jsonParseError m) ∧
      (uploadFile env apiBaseUrl fileName resp).2 = .error (.jsonParseError m) ∧
      (deleteFile env apiBaseUrl fileId true resp).2 =
        .error (.jsonParseError m)) ∧
    (∀ b d, resp.jsonBody = .ok b → b.getField "detail" = some d →
      d.truthy = true →
      (sendMessage env apiBaseUrl message resp).2 = .error (.error d.jsToString) ∧
      (getFiles env apiBaseUrl status resp).2 = .error (.error d.jsToString) ∧
      (uploadFile env apiBaseUrl fileName resp).2 = .error (.error d.jsToString) ∧
      (deleteFile env apiBaseUrl fileId true resp).2 =
        .error (.error d.jsToString)) ∧
    (∀ b, resp.jsonBody = .ok b → b ≠ .null →
      jsTruthy (b.getField "detail") = false →
      (sendMessage env apiBaseUrl message resp).2 =
        .error (.error sendMessageFallback) ∧
      (getFiles env apiBaseUrl status resp).2 =
        .error (.error getFilesFallback) ∧
      (uploadFile env apiBaseUrl fileName resp).2 =
        .error (.error uploadFileFallback) ∧
      (deleteFile env apiBaseUrl fileId true resp).2 =
        .error (.error deleteFileFallback)) ∧
    (sendMessageFallback ≠ "" ∧ getFilesFallback ≠ "" ∧
      uploadFileFallback ≠ "" ∧ deleteFileFallback ≠ "") := by
  refine ⟨fun m hb => ?_, fun b d hb hd ht => ?_, fun b hb hnull ht => ?_,
    by decide, by decide, by decide, by decide⟩
  · rw [sendMessage_result env apiBaseUrl message resp token h hne,
      getFiles_result env apiBaseUrl status resp token h hne,
      uploadFile_result env apiBaseUrl fileName resp token h hne,
      deleteFile_result env apiBaseUrl fileId resp token h hne,
      handleResponse_parse_error resp sendMessageFallback m hok hb,
      handleResponse_parse_error resp getFilesFallback m hok hb,
      handleResponse_parse_error resp uploadFileFallback m hok hb,
      handleResponse_parse_error resp deleteFileFallback m hok hb]
    exact ⟨rfl, rfl, rfl, rfl⟩
  · rw [sendMessage_result env apiBaseUrl message resp token h hne,
      getFiles_result env apiBaseUrl status resp token h hne,
      uploadFile_result env apiBaseUrl fileName resp token h hne,
      deleteFile_result env apiBaseUrl fileId resp token h hne,
      handleResponse_detail resp sendMessageFallback b d hok hb hd ht,
      handleResponse_detail resp getFilesFallback b d hok hb hd ht,
      handleResponse_detail resp uploadFileFallback b d hok hb hd ht,
      handleResponse_detail resp deleteFileFallback b d hok hb hd ht]
    exact ⟨rfl, rfl, rfl, rfl⟩
  · rw [sendMessage_result env apiBaseUrl message resp token h hne,
      getFiles_result env apiBaseUrl status resp token h hne,
      uploadFile_result env apiBaseUrl fileName resp token h hne,
      deleteFile_result env apiBaseUrl fileId resp token h hne,
      handleResponse_fallback resp sendMessageFallback b hok hb hnull ht,
      handleResponse_fallback resp getFilesFallback b hok hb hnull ht,
      handleResponse_fallback resp uploadFileFallback b hok hb hnull ht,
      handleResponse_fallback resp deleteFileFallback b hok hb hnull ht]
    exact ⟨rfl, rfl, rfl, rfl⟩

/-- A non-2xx response with a truthy backend `detail`. -/
def detailResp : HttpResponse :=
  { ok := false, jsonBody := .ok (.obj [("detail", .str "boom")]) }

/-- A non-2xx response with a parseable body and no `detail` field. -/
def noDetailResp : HttpResponse :=
  { ok := false, jsonBody := .ok (.obj []) }

/-- Witness for C2 (amended): the three message outcomes at concrete
responses. -/
theorem gateway_non2xx_error_messages_witness :
    (getFiles authedEnv localApiBase none detailResp).2 =
      .error (.error "boom") ∧
    (sendMessage authedEnv localApiBase "hi" noDetailResp).2 =
      .error (.error sendMessageFallback) ∧
    (uploadFile authedEnv localApiBase "a.pdf" badJsonResp).2 =
      .error (.jsonParseError "Unexpected token < in JSON at position 0") :=
  ⟨((gateway_non2xx_error_messages authedEnv localApiBase "hi" "a.pdf" "file-1"
        none detailResp "tok123" rfl (by decide) rfl).2.1
      (.obj [("detail", .str "boom")]) (.str "boom") rfl rfl rfl).2.1,
   ((gateway_non2xx_error_messages authedEnv localApiBase "hi" "a.pdf" "file-1"
        none noDetailResp "tok123" rfl (by decide) rfl).2.2.1
      (.obj []) rfl (by simp) rfl).1,
   ((gateway_non2xx_error_messages authedEnv localApiBase "hi" "a.pdf" "file-1"
        none badJsonResp "tok123" rfl (by decide) rfl).1
      "Unexpected token < in JSON at position 0" rfl).2.2.1⟩

/-- C5: submitting the chat form with message `"test question"` while
authenticated issues exactly one POST to the `/chat` path with JSON body
`\x7b"message":"test question"\x7d`; the response's `answer` is rendered as
the assistant message; a non-empty `sources` array is rendered as one list
whose entry for each source is its `file_name` followed by its
`similarity` multiplied by 100, rounded to one decimal place, and a percent
sign. (Authenticated means a truthy — non-empty — token is available.) -/
theorem chat_submit_test_question (env : SupabaseEnv)
    (apiBaseUrl : String) (resp : HttpResponse) (token : String)
    (body : Json) (answer : String) (srcs : List Json)
    (h : getAuthToken env = some token) (htok : token ≠ "")
    (hok : resp.ok = true) (hb : resp.jsonBody = .ok body)
    (hans : body.getField "answer" = some (.str answer))
    (hsrc : body.getField "sources" = some (.arr srcs))
    (hne : srcs ≠ []) :
    chatSubmit env apiBaseUrl "test question" resp =
      ([{ url := apiBaseUrl ++ "/chat", method := "POST",
          headers := [("Authorization", "Bearer " ++ token),
                      ("Content-Type", "application/json")],
          body := .jsonStr "\x7b\"message\":\"test question\"\x7d" }],
       [.userMessage "test question", .assistantMessage answer,
        .sources (srcs.map sourceLine)]) ∧
    ∀ src ∈ srcs, ∀ fileName q,
      src.getField "file_name" = some (.str fileName) →
      src.getField "similarity" = some (.num q) →
      sourceLine src = fileName ++ " (類似度: " ++ toFixed1 (q * 100) ++ "%)" := by
  constructor
  · have htrim : jsTrim "test question" = "test question" := by decide
    have hh : getAuthHeaders env =
        .ok [("Authorization", "Bearer " ++ token),
             ("Content-Type", "application/json")] := by
      simp [getAuthHeaders, h, htok]
    have hlen : decide (srcs.length > 0) = true := by
      simp [List.length_pos, hne]
    have hempty : srcs.isEmpty = false := by
      cases srcs with
      | nil => exact absurd rfl hne
      | cons a l => rfl
    simp only [chatSubmit, htrim, sendMessage, hh,
      handleResponse, hok, if_true, hb, hans, hsrc, hlen, displaySources,
      hempty, jsTextContent, Json.jsToString]
    simp
    decide
  · intro src _ fileName q hfn hq
    simp [sourceLine, jsTemplate, similarityPercent, hfn, hq,
      Json.jsToString]

/-- A concrete chat source: `doc.pdf` with similarity 0.823. -/
def src0 : Json :=
  .obj [("file_name", .str "doc.pdf"), ("similarity", .num (823 / 1000))]

/-- A concrete successful chat response body. -/
def chatBody : Json :=
  .obj [("answer", .str "It works."), ("sources", .arr [src0])]

/-- The transport response delivering `chatBody`. -/
def chatResp : HttpResponse := { ok := true, jsonBody := .ok chatBody }

/-- Witness for C5: the full concrete run, with `0.823` rendered as
`82.3%`. -/
theorem chat_submit_test_question_witness :
    chatSubmit authedEnv localApiBase "test question" chatResp =
      ([{ url := "http://localhost:7071/api/chat", method := "POST",
          headers := [("Authorization", "Bearer tok123"),
                      ("Content-Type", "application/json")],
          body := .jsonStr "\x7b\"message\":\"test question\"\x7d" }],
       [.userMessage "test question", .assistantMessage "It works.",
        .sources ["doc.pdf (類似度: 82.3%)"]]) :=
  ((chat_submit_test_question authedEnv localApiBase chatResp "tok123"
      chatBody "It works." [src0] rfl (by decide) rfl rfl rfl rfl
      (List.cons_ne_nil _ _)).1).trans (by with_unfolding_all rfl)
